import Mathlib

/-!
Shallow embedding of the voter verification and single-submission voting
subsystem of `src/server/index.js` (Express voting server).

Pure helpers are translated directly.  The JSON data files
(`settings.json`, `students.json`, `votes.json`) and the in-memory maps
(`verifiedSessions`, `votingSessions`, `rateLimitMap`) become fields of
`ServerState`; each HTTP handler becomes a function from state (plus
request data, the current clock value in milliseconds, and explicit
success oracles for the fallible `writeJsonFile` calls) to state and
response.  JS `Map` objects are modelled as association lists with
lookup-first semantics (`mapLookup`, `mapHas`, `mapSet`, `mapDelete`).

The Node event loop with `await` suspension points inside the
`POST /api/vote` handler is modelled separately as a small-step system
(`voteStep` / `runSchedule`): each `await` splits into an I/O-completion
step (the read value or write effect is taken against the current global
state) and the synchronous continuation; a schedule chooses which request
advances at each tick.  This mirrors Node semantics, where the data of a
file read is captured when the I/O completes, possibly long before the
awaiting continuation is scheduled.
-/

namespace VoteSystem

/-- Model of Node crypto.createHash(sha256).update(s).digest(hex): an
injective encoding of its input (we use the input string itself), so that
equality of modelled keys coincides with equality of the hashed raw
strings; real SHA-256 collisions are assumed absent. -/
def sha256hex (s : String) : String := s

/-- Model of the JS `String.prototype.toLowerCase()` over the ASCII range
relevant to the profile fields: every character is lower-cased. -/
def toLowerStr (s : String) : String := ⟨s.data.map Char.toLower⟩

/-- Model of the JS `String.prototype.trim()`: surrounding whitespace is
removed from both ends. -/
def trimStr (s : String) : String :=
  ⟨((s.data.dropWhile Char.isWhitespace).reverse.dropWhile Char.isWhitespace).reverse⟩

/-- `windowMs` from the `rateLimit` middleware: 60000 ms. -/
def windowMs : Nat := 60000

/-- `maxRequests` from the `rateLimit` middleware: 20 per window. -/
def maxRequests : Nat := 20

/-- `sessionTimeout` used by the periodic cleanup: 10 minutes in ms. -/
def sessionTimeout : Nat := 600000

/-- The `setInterval` period of the cleanup sweeper: 5 minutes in ms. -/
def sweepIntervalMs : Nat := 300000

/-- The voter profile fields posted to `/api/check-voter`.  The JSON field
`class` is called `studentClass` here, as in the JS destructurings. -/
structure VoterInfo where
  name : String
  studentClass : String
  division : String
  dateOfBirth : String
deriving DecidableEq, Repr

/-- `generateVoterKey` from `src/server/index.js` lines 110-113: SHA-256 of
the template string with the name lower-cased and trimmed and the class and
division trimmed (but not case-folded); the date of birth is used as is. -/
def generateVoterKey (name studentClass division dateOfBirth : String) : String :=
  sha256hex (trimStr (toLowerStr name) ++ "_" ++ trimStr studentClass ++ "_" ++
    trimStr division ++ "_" ++ dateOfBirth)

/-- The voter key of a whole profile, as computed by both handlers. -/
def voterKeyOf (info : VoterInfo) : String :=
  generateVoterKey info.name info.studentClass info.division info.dateOfBirth

/-- JS `Map.get`: first binding of the key wins. -/
def mapLookup {α : Type} : List (String × α) → String → Option α
  | [], _ => none
  | p :: ps, k => if p.1 == k then some p.2 else mapLookup ps k

/-- JS `Map.has`. -/
def mapHas {α : Type} : List (String × α) → String → Bool
  | [], _ => false
  | p :: ps, k => p.1 == k || mapHas ps k

/-- JS `Map.delete`: removes every binding of the key. -/
def mapDelete {α : Type} : List (String × α) → String → List (String × α)
  | [], _ => []
  | p :: ps, k => if p.1 == k then mapDelete ps k else p :: mapDelete ps k

/-- JS `Map.set`: binds the key to the value, replacing any old binding. -/
def mapSet {α : Type} (m : List (String × α)) (k : String) (v : α) :
    List (String × α) :=
  (k, v) :: mapDelete m k

/-- One entry of `rateLimitMap`: `{ count, resetTime }`. -/
structure RateEntry where
  count : Nat
  resetTime : Nat
deriving DecidableEq, Repr

/-- The `rateLimit` middleware, lines 120-149: returns the updated map and
whether the request is admitted (`next()` called) or rejected with 429. -/
def rateLimit (m : List (String × RateEntry)) (ip : String) (now : Nat) :
    List (String × RateEntry) × Bool :=
  match mapLookup m ip with
  | none => (mapSet m ip ⟨1, now + windowMs⟩, true)
  | some clientData =>
    if now > clientData.resetTime then
      (mapSet m ip ⟨1, now + windowMs⟩, true)
    else if clientData.count ≥ maxRequests then
      (m, false)
    else
      (mapSet m ip ⟨clientData.count + 1, clientData.resetTime⟩, true)

/-- A value of the `verifiedSessions` map: voter key, profile snapshot and
creation time (the `verified: true` flag is constant and omitted). -/
structure VerifiedSession where
  voterKey : String
  voterInfo : VoterInfo
  timestamp : Nat
deriving DecidableEq, Repr

/-- One entry of `students.json` (the voter roll), as pushed by the vote
handler; `sessionToken` holds the 8-character audit slice of the token. -/
structure StudentRecord where
  voterKey : String
  voterInfo : VoterInfo
  votedAt : Nat
  headBoyVote : Option String
  headGirlVote : Option String
  sportsCaptainVote : Option String
  sportsViceCaptainVote : Option String
  sessionToken : String
deriving DecidableEq, Repr

/-- `votes.json`: candidate-name to count, per position. -/
structure Votes where
  headBoy : List (String × Nat)
  headGirl : List (String × Nat)
  sportsCaptain : List (String × Nat)
  sportsViceCaptain : List (String × Nat)
deriving DecidableEq, Repr

/-- The fresh tally written by `initializeData` and by `/api/admin/reset`. -/
def emptyVotes : Votes := ⟨[], [], [], []⟩

/-- The whole observable server state: `settings.json` (the
`votingEnabled` flag), `students.json`, `votes.json`, and the three
in-memory maps. -/
structure ServerState where
  votingEnabled : Bool
  students : List StudentRecord
  votes : Votes
  verifiedSessions : List (String × VerifiedSession)
  votingSessions : List (String × Nat)
  rateLimitMap : List (String × RateEntry)
deriving DecidableEq, Repr

/-- `students.some(student => student.voterKey === voterKey)`, the durable
has-voted check used by both handlers. -/
def rollHas (students : List StudentRecord) (voterKey : String) : Bool :=
  students.any fun student => student.voterKey == voterKey

/-- Durable has-voted check against the current roll. -/
def hasVoted (st : ServerState) (voterKey : String) : Bool :=
  rollHas st.students voterKey

/-- The JSON body answered by `/api/check-voter`. -/
structure CheckVoterResponse where
  success : Bool
  hasVoted : Bool
  sessionToken : Option String
  message : String
deriving DecidableEq, Repr

/-- The `/api/check-voter` handler body from the voter-key computation on
(lines 482-531; input validation has already passed and rate limiting is
modelled separately by `rateLimit`).  `freshToken` stands for the value of
`generateSessionToken()`, a 32-byte random hex string. -/
def checkVoter (st : ServerState) (voterInfo : VoterInfo) (freshToken : String)
    (now : Nat) : ServerState × CheckVoterResponse :=
  let voterKey := voterKeyOf voterInfo
  if hasVoted st voterKey then
    (st, ⟨false, true, none, "This student has already voted"⟩)
  else if mapHas st.votingSessions voterKey then
    (st, ⟨false, true, none, "Voting session already in progress for this student"⟩)
  else
    ({ st with
        verifiedSessions :=
          mapSet st.verifiedSessions freshToken ⟨voterKey, voterInfo, now⟩ },
      ⟨true, false, some freshToken, "Verification successful"⟩)

/-- The body posted to `/api/vote`; a JS falsy selection (missing, null or
empty string) is `none`. -/
structure VoteRequest where
  sessionToken : Option String
  headBoyVote : Option String
  headGirlVote : Option String
  sportsCaptainVote : Option String
  sportsViceCaptainVote : Option String
deriving DecidableEq, Repr

/-- The distinct outcomes of the `/api/vote` handler, in the order their
checks appear in the source. -/
inductive VoteResult where
  | votingDisabled
  | sessionExpired
  | alreadyVoted
  | submissionInProgress
  | noSelection
  | success
  | commitFailed
deriving DecidableEq, Repr

/-- `votes.position[candidate] || 0`. -/
def tallyGet (t : List (String × Nat)) (c : String) : Nat :=
  match mapLookup t c with
  | some n => n
  | none => 0

/-- `votes.position[candidate] = (votes.position[candidate] || 0) + 1`. -/
def tallyIncr (t : List (String × Nat)) (c : String) : List (String × Nat) :=
  mapSet t c (tallyGet t c + 1)

/-- Increment a tally for a selection when one was made. -/
def bumpTally (t : List (String × Nat)) : Option String → List (String × Nat)
  | some c => tallyIncr t c
  | none => t

/-- The four conditional tally increments of the vote handler. -/
def recordVotes (v : Votes) (req : VoteRequest) : Votes :=
  { headBoy := bumpTally v.headBoy req.headBoyVote
    headGirl := bumpTally v.headGirl req.headGirlVote
    sportsCaptain := bumpTally v.sportsCaptain req.sportsCaptainVote
    sportsViceCaptain := bumpTally v.sportsViceCaptain req.sportsViceCaptainVote }

/-- The object pushed onto the students array by the vote handler. -/
def mkStudentRecord (voterKey : String) (voterInfo : VoterInfo) (now : Nat)
    (req : VoteRequest) (tok : String) : StudentRecord :=
  ⟨voterKey, voterInfo, now, req.headBoyVote, req.headGirlVote,
    req.sportsCaptainVote, req.sportsViceCaptainVote, tok.take 8⟩

/-- `!headBoyVote && !headGirlVote && !sportsCaptainVote && !sportsViceCaptainVote`. -/
def noSelections (req : VoteRequest) : Bool :=
  req.headBoyVote.isNone && req.headGirlVote.isNone &&
    req.sportsCaptainVote.isNone && req.sportsViceCaptainVote.isNone

/-- The `/api/vote` handler (lines 539-645) run to completion without
interleaving.  `votesWriteOk` and `studentsWriteOk` are the outcomes of the
two `writeJsonFile` calls; a failed write leaves its file unchanged, both
writes are attempted, and on `(votesSuccess && studentsSuccess) = false`
the handler throws, the catch removes the voting lock, and the client gets
a 500 (`commitFailed`).  On the already-voted path only the verified
session is dropped; on commit failure the verified session is kept. -/
def vote (st : ServerState) (req : VoteRequest) (now : Nat)
    (votesWriteOk studentsWriteOk : Bool) : ServerState × VoteResult :=
  if !st.votingEnabled then (st, .votingDisabled)
  else
    match req.sessionToken with
    | none => (st, .sessionExpired)
    | some tok =>
      match mapLookup st.verifiedSessions tok with
      | none => (st, .sessionExpired)
      | some session =>
        if hasVoted st session.voterKey then
          ({ st with verifiedSessions := mapDelete st.verifiedSessions tok },
            .alreadyVoted)
        else if mapHas st.votingSessions session.voterKey then
          (st, .submissionInProgress)
        else if noSelections req then
          (st, .noSelection)
        else
          if votesWriteOk && studentsWriteOk then
            ({ st with
                votes := recordVotes st.votes req,
                students := st.students ++
                  [mkStudentRecord session.voterKey session.voterInfo now req tok],
                verifiedSessions := mapDelete st.verifiedSessions tok,
                votingSessions :=
                  mapDelete (mapSet st.votingSessions session.voterKey now)
                    session.voterKey },
              .success)
          else
            ({ st with
                votes := if votesWriteOk then recordVotes st.votes req else st.votes,
                students := if studentsWriteOk then
                    st.students ++
                      [mkStudentRecord session.voterKey session.voterInfo now req tok]
                  else st.students,
                votingSessions :=
                  mapDelete (mapSet st.votingSessions session.voterKey now)
                    session.voterKey },
              .commitFailed)

/-- The periodic cleanup sweeper (lines 729-753): drops verified sessions
and voting locks older than `sessionTimeout` and rate windows past their
reset time. -/
def cleanup (st : ServerState) (now : Nat) : ServerState :=
  { st with
    verifiedSessions := st.verifiedSessions.filter fun p =>
      !decide (now - p.2.timestamp > sessionTimeout),
    votingSessions := st.votingSessions.filter fun p =>
      !decide (now - p.2 > sessionTimeout),
    rateLimitMap := st.rateLimitMap.filter fun p =>
      !decide (now > p.2.resetTime) }

/-- The `/api/settings` POST handler: on a successful settings write the
flag is updated and, when voting is being disabled, both session maps are
cleared; on a failed write nothing changes. -/
def setSettings (st : ServerState) (votingEnabled : Bool) (writeOk : Bool) :
    ServerState :=
  if writeOk then
    if !votingEnabled then
      { st with
          votingEnabled := votingEnabled,
          votingSessions := [], verifiedSessions := [] }
    else { st with votingEnabled := votingEnabled }
  else st

/-- The `/api/admin/reset` handler: attempts to write empty tallies and an
empty roll (each write may fail independently) and unconditionally clears
all three in-memory maps. -/
def adminReset (st : ServerState) (votesWriteOk studentsWriteOk : Bool) :
    ServerState :=
  { st with
    votes := if votesWriteOk then emptyVotes else st.votes,
    students := if studentsWriteOk then [] else st.students,
    votingSessions := [], verifiedSessions := [], rateLimitMap := [] }

/-- The state-changing operations of the server, for stating preservation
properties such as the terminality of the voted state. -/
inductive ServerOp where
  | checkVoterOp (voterInfo : VoterInfo) (freshToken : String) (now : Nat)
  | voteOp (req : VoteRequest) (now : Nat) (votesWriteOk studentsWriteOk : Bool)
  | cleanupOp (now : Nat)
  | settingsOp (votingEnabled writeOk : Bool)
  | resetOp (votesWriteOk studentsWriteOk : Bool)

/-- Whether an operation is the admin reset. -/
def ServerOp.isReset : ServerOp → Bool
  | .resetOp _ _ => true
  | _ => false

/-- The state transformation of each operation. -/
def applyOp (st : ServerState) : ServerOp → ServerState
  | .checkVoterOp info tok now => (checkVoter st info tok now).1
  | .voteOp req now vOk sOk => (vote st req now vOk sOk).1
  | .cleanupOp now => cleanup st now
  | .settingsOp enabled ok => setSettings st enabled ok
  | .resetOp vOk sOk => adminReset st vOk sOk

/-- How many live verified sessions exist for a voter key. -/
def sessionsFor (st : ServerState) (voterKey : String) : Nat :=
  (st.verifiedSessions.filter fun p => p.2.voterKey == voterKey).length

/-- The control point of one in-flight `/api/vote` request.  A `want`
phase is a pending awaited I/O whose value or effect is taken against the
global state when the step fires; a `have` phase is the synchronous
continuation that follows it.  Captured snapshots (`studentsSnap`,
`votesSnap`) model that the handler keeps working on the data its earlier
reads returned, however stale. -/
inductive VPhase where
  | start
  | haveSettings (votingEnabled : Bool)
  | wantStudents (tok voterKey : String) (voterInfo : VoterInfo)
  | haveStudents (tok voterKey : String) (voterInfo : VoterInfo)
      (studentsSnap : List StudentRecord)
  | wantVotes (tok voterKey : String) (voterInfo : VoterInfo)
      (studentsSnap : List StudentRecord)
  | haveVotes (tok voterKey : String) (voterInfo : VoterInfo)
      (studentsSnap : List StudentRecord) (votesSnap : Votes)
  | wantWriteVotes (tok voterKey : String) (votesNew : Votes)
      (studentsNew : List StudentRecord)
  | wantWriteStudents (tok voterKey : String) (studentsNew : List StudentRecord)
  | haveWrites (tok voterKey : String)
  | done (result : VoteResult)
deriving Repr

/-- One concurrent `/api/vote` request: its body, the clock value it uses,
the outcomes of its two file writes, and its control point. -/
structure VoteThread where
  req : VoteRequest
  now : Nat
  votesWriteOk : Bool
  studentsWriteOk : Bool
  phase : VPhase
deriving Repr

/-- Advance one request by one scheduler tick, mirroring the vote handler
code between consecutive `await` boundaries.  The token lookup and the
lock test-and-set each sit inside a single synchronous block, so each is
atomic here, exactly as on the Node event loop. -/
def voteStep (g : ServerState) (t : VoteThread) : ServerState × VoteThread :=
  match t.phase with
  | .start => (g, { t with phase := .haveSettings g.votingEnabled })
  | .haveSettings enabled =>
    if !enabled then (g, { t with phase := .done .votingDisabled })
    else
      match t.req.sessionToken with
      | none => (g, { t with phase := .done .sessionExpired })
      | some tok =>
        match mapLookup g.verifiedSessions tok with
        | none => (g, { t with phase := .done .sessionExpired })
        | some session =>
          (g, { t with phase := .wantStudents tok session.voterKey session.voterInfo })
  | .wantStudents tok key info =>
    (g, { t with phase := .haveStudents tok key info g.students })
  | .haveStudents tok key info snap =>
    if rollHas snap key then
      ({ g with verifiedSessions := mapDelete g.verifiedSessions tok },
        { t with phase := .done .alreadyVoted })
    else if mapHas g.votingSessions key then
      (g, { t with phase := .done .submissionInProgress })
    else if noSelections t.req then
      (g, { t with phase := .done .noSelection })
    else
      ({ g with votingSessions := mapSet g.votingSessions key t.now },
        { t with phase := .wantVotes tok key info snap })
  | .wantVotes tok key info snap =>
    (g, { t with phase := .haveVotes tok key info snap g.votes })
  | .haveVotes tok key info snap votesSnap =>
    (g, { t with
            phase := .wantWriteVotes tok key (recordVotes votesSnap t.req)
              (snap ++ [mkStudentRecord key info t.now t.req tok]) })
  | .wantWriteVotes tok key votesNew studentsNew =>
    ((if t.votesWriteOk then { g with votes := votesNew } else g),
      { t with phase := .wantWriteStudents tok key studentsNew })
  | .wantWriteStudents tok key studentsNew =>
    ((if t.studentsWriteOk then { g with students := studentsNew } else g),
      { t with phase := .haveWrites tok key })
  | .haveWrites tok key =>
    if t.votesWriteOk && t.studentsWriteOk then
      ({ g with
          verifiedSessions := mapDelete g.verifiedSessions tok,
          votingSessions := mapDelete g.votingSessions key },
        { t with phase := .done .success })
    else
      ({ g with votingSessions := mapDelete g.votingSessions key },
        { t with phase := .done .commitFailed })
  | .done _ => (g, t)

/-- Run a list of concurrent requests under a schedule: at each tick the
named request advances one `voteStep`; out-of-range indices are skipped. -/
def runSchedule : ServerState → List VoteThread → List Nat →
    ServerState × List VoteThread
  | g, ts, [] => (g, ts)
  | g, ts, i :: rest =>
    match ts[i]? with
    | none => runSchedule g ts rest
    | some t =>
      let r := voteStep g t
      runSchedule r.1 (ts.set i r.2) rest

/-- The final HTTP outcome of a request, when it has one. -/
def threadResult (t : VoteThread) : Option VoteResult :=
  match t.phase with
  | .done r => some r
  | _ => none

/-- Concrete verified voter used by the scenarios below. -/
def infoC : VoterInfo := ⟨"jane doe", "10", "A", "2010-05-05"⟩

/-- The voter key of `infoC`. -/
def keyC : String := voterKeyOf infoC

/-- A vote request using the live token `tokC` and selecting Alice. -/
def reqC : VoteRequest := ⟨some "tokC", some "Alice", none, none, none⟩

/-- Fresh state holding one live verified session for `infoC`. -/
def g0C : ServerState :=
  ⟨true, [], emptyVotes, [("tokC", ⟨keyC, infoC, 0⟩)], [], []⟩

/-- First concurrent submission carrying `tokC`. -/
def threadA : VoteThread := ⟨reqC, 100, true, true, .start⟩

/-- Second concurrent submission carrying the same token `tokC`. -/
def threadB : VoteThread := ⟨reqC, 200, true, true, .start⟩

/-- Schedule where request B reads `students.json` before request A
commits, then resumes only after A has finished and released everything:
B validates the token, captures the pre-commit roll, A runs to successful
completion, and B finishes on its stale snapshot. -/
def scheduleC : List Nat := [1, 1, 1] ++ List.replicate 9 0 ++ List.replicate 6 1

/-- State with voting disabled and no sessions at all. -/
def stDisabled : ServerState := ⟨false, [], emptyVotes, [], [], []⟩

/-- A vote request whose token is not in `verifiedSessions`. -/
def reqUnknown : VoteRequest := ⟨some "ghost", some "Alice", none, none, none⟩

/-- State holding a verified session created at time 0 for `infoC`. -/
def stStale : ServerState :=
  ⟨true, [], emptyVotes, [("tokS", ⟨keyC, infoC, 0⟩)], [], []⟩

/-- A vote request carrying the token of the session in `stStale`. -/
def reqStale : VoteRequest := ⟨some "tokS", some "Alice", none, none, none⟩

/-- A rate-limit table whose one window for ip1 is at the request cap. -/
def rlFull : List (String × RateEntry) := [("ip1", ⟨20, 50⟩)]

/-- State with a voting lock held for `keyC` but an empty voter roll. -/
def stLocked : ServerState := ⟨true, [], emptyVotes, [], [(keyC, 0)], []⟩

/-- State with one live verified session for `infoC` and no voting lock. -/
def stVerifiedLive : ServerState :=
  ⟨true, [], emptyVotes, [("tok1", ⟨keyC, infoC, 0⟩)], [], []⟩

/-- State with a live verified session for `infoC` under token tokC9. -/
def stC9 : ServerState := ⟨true, [], emptyVotes, [("tokC9", ⟨keyC, infoC, 0⟩)], [], []⟩

/-- A vote request for the session of `stC9`. -/
def reqC9 : VoteRequest := ⟨some "tokC9", some "Bob", none, none, none⟩

/-- State in which `infoC` has already voted: a roll entry for `keyC`
exists and the matching tally is recorded. -/
def stVoted : ServerState :=
  ⟨true, [⟨keyC, infoC, 10, some "Alice", none, none, none, "tokC"⟩],
    ⟨[("Alice", 1)], [], [], []⟩, [], [], []⟩

/-! ## Helper lemmas about the map model -/

/-- Deleting a key removes every binding of it. -/
theorem mapHas_mapDelete_self {α : Type} (m : List (String × α)) (k : String) :
    mapHas (mapDelete m k) k = false := by
  induction m with
  | nil => rfl
  | cons p ps ih =>
    cases hp : (p.1 == k) with
    | true => simpa [mapDelete, hp] using ih
    | false => simp [mapDelete, mapHas, hp, ih]

/-- Deletion never makes an absent key present. -/
theorem mapHas_mapDelete_false {α : Type} (m : List (String × α)) (k k2 : String)
    (h : mapHas m k = false) : mapHas (mapDelete m k2) k = false := by
  induction m with
  | nil => rfl
  | cons p ps ih =>
    have h1 : (p.1 == k) = false := by
      cases hpk : (p.1 == k) with
      | false => rfl
      | true => simp [mapHas, hpk] at h
    have h2 : mapHas ps k = false := by
      cases hps : mapHas ps k with
      | false => rfl
      | true => simp [mapHas, hps] at h
    cases hp2 : (p.1 == k2) with
    | true => simpa [mapDelete, hp2] using ih h2
    | false => simp [mapDelete, mapHas, hp2, h1, ih h2]

/-- A set-then-delete round trip on one key leaves an absent key absent. -/
theorem mapHas_mapDelete_mapSet {α : Type} (m : List (String × α)) (key k : String)
    (v : α) (h : mapHas m k = false) :
    mapHas (mapDelete (mapSet m key v) key) k = false := by
  have hd : mapDelete (mapSet m key v) key = mapDelete (mapDelete m key) key := by
    simp [mapSet, mapDelete]
  rw [hd]
  exact mapHas_mapDelete_false _ _ _ (mapHas_mapDelete_false _ _ _ h)

/-- Deleting an absent key is a no-op. -/
theorem mapDelete_of_not_has {α : Type} (m : List (String × α)) (k : String)
    (h : mapHas m k = false) : mapDelete m k = m := by
  induction m with
  | nil => rfl
  | cons p ps ih =>
    have h1 : (p.1 == k) = false := by
      cases hpk : (p.1 == k) with
      | false => rfl
      | true => simp [mapHas, hpk] at h
    have h2 : mapHas ps k = false := by
      cases hps : mapHas ps k with
      | false => rfl
      | true => simp [mapHas, hps] at h
    simp [mapDelete, h1, ih h2]

/-- Looking up a key right after setting it yields the set value. -/
theorem mapLookup_mapSet_self {α : Type} (m : List (String × α)) (k : String) (v : α) :
    mapLookup (mapSet m k v) k = some v := by
  simp [mapLookup, mapSet]

/-! ## Helper lemmas about the handlers -/

/-- The check-voter handler never changes the voter roll. -/
theorem checkVoter_students (st : ServerState) (info : VoterInfo) (tok : String)
    (now : Nat) : (checkVoter st info tok now).1.students = st.students := by
  simp only [checkVoter]
  split
  · rfl
  · split <;> rfl

/-- The vote handler only ever appends to the voter roll, so a voted key
stays voted across any vote call. -/
theorem vote_preserves_hasVoted (st : ServerState) (req : VoteRequest) (now : Nat)
    (a b : Bool) (k : String) (h : hasVoted st k = true) :
    hasVoted (vote st req now a b).1 k = true := by
  unfold vote
  split
  · exact h
  · split
    · exact h
    · split
      · exact h
      · split
        · exact h
        · split
          · exact h
          · split
            · exact h
            · split
              · simp only [hasVoted, rollHas] at h ⊢
                simp [List.any_append, h]
              · split
                · simp only [hasVoted, rollHas] at h ⊢
                  simp [List.any_append, h]
                · exact h

/-! ## Claim theorems -/

/-- C1: once a voter-roll entry for key k exists (one successful commit),
`hasVoted` k stays true: every check-voter call for a profile hashing to k
is rejected with the already-voted response and leaves the state
unchanged, and every server operation other than the admin reset
preserves the voted state, so the Voted state is terminal barring admin
reset. -/
theorem c1_voted_terminal (st : ServerState) (k : String) (h : hasVoted st k = true) :
    (∀ info tok now, voterKeyOf info = k →
      checkVoter st info tok now
        = (st, ⟨false, true, none, "This student has already voted"⟩)) ∧
    (∀ op, op.isReset = false → hasVoted (applyOp st op) k = true) := by
  constructor
  · intro info tok now hk
    simp [checkVoter, hk, h]
  · intro op hop
    cases op with
    | checkVoterOp info tok now =>
      simp only [applyOp, hasVoted, checkVoter_students]
      exact h
    | voteOp req now vOk sOk => exact vote_preserves_hasVoted st req now vOk sOk k h
    | cleanupOp now => exact h
    | settingsOp enabled ok =>
      simp only [applyOp, setSettings]
      split
      · split
        · exact h
        · exact h
      · exact h
    | resetOp vOk sOk => simp [ServerOp.isReset] at hop

/-- Witness for C1 at a concrete voted state. -/
theorem c1_voted_terminal_witness :
    hasVoted stVoted keyC = true ∧
    checkVoter stVoted infoC "tokW" 20
      = (stVoted, ⟨false, true, none, "This student has already voted"⟩) ∧
    hasVoted (applyOp stVoted (ServerOp.cleanupOp 999)) keyC = true := by
  refine ⟨by decide, ?_, ?_⟩
  · exact (c1_voted_terminal stVoted keyC (by decide)).1 infoC "tokW" 20 (by decide)
  · exact (c1_voted_terminal stVoted keyC (by decide)).2 (ServerOp.cleanupOp 999) (by decide)

/-- C2 is false of the code: two concurrent vote submissions carrying the
same live token can both succeed, and the tally for the chosen candidate
rises by two.  Request B passes the token check and captures the
pre-commit roll; request A then commits fully and releases the lock; B
resumes on its stale snapshot, sees no roll entry and no lock, and
commits a second time.  This contradicts the exactly-once claim. -/
theorem c2_concurrent_double_vote :
    ((runSchedule g0C [threadA, threadB] scheduleC).2.map threadResult
        = [some VoteResult.success, some VoteResult.success]) ∧
    tallyGet (runSchedule g0C [threadA, threadB] scheduleC).1.votes.headBoy "Alice" = 2 := by
  decide

/-- C3 is false of the code: when the tally write succeeds and the roll
write fails, the handler reports commit failure while the tally already
counts the vote and the roll does not mark the voter, the verified
session survives, and a retry with the same token succeeds and counts the
vote a second time. -/
theorem c3_partial_write_double_count :
    (vote g0C reqC 50 true false).2 = VoteResult.commitFailed ∧
    tallyGet (vote g0C reqC 50 true false).1.votes.headBoy "Alice" = 1 ∧
    hasVoted (vote g0C reqC 50 true false).1 keyC = false ∧
    mapHas (vote g0C reqC 50 true false).1.verifiedSessions "tokC" = true ∧
    (vote (vote g0C reqC 50 true false).1 reqC 60 true true).2 = VoteResult.success ∧
    tallyGet (vote (vote g0C reqC 50 true false).1 reqC 60 true true).1.votes.headBoy
      "Alice" = 2 := by
  decide

/-- C4 counterexample: two profiles differing only in the letter case of
the class field produce different voter keys, because `generateVoterKey`
lower-cases only the name. -/
theorem c4_class_case_changes_key :
    generateVoterKey "jane" "10a" "B" "2010-01-01"
      ≠ generateVoterKey "jane" "10A" "B" "2010-01-01" := by
  decide

/-- C4 amended: the voter key is invariant under letter-case and
surrounding-whitespace variation of the name and under
surrounding-whitespace variation of class and division (but not under
case variation of class or division, and the date of birth is used
verbatim). -/
theorem c4_amended_normalization (n1 n2 c1 c2 d1 d2 dob : String)
    (hn : trimStr (toLowerStr n1) = trimStr (toLowerStr n2))
    (hc : trimStr c1 = trimStr c2) (hd : trimStr d1 = trimStr d2) :
    generateVoterKey n1 c1 d1 dob = generateVoterKey n2 c2 d2 dob := by
  simp [generateVoterKey, sha256hex, hn, hc, hd]

/-- Witness for the amended C4 at concrete formatting variants. -/
theorem c4_amended_normalization_witness :
    generateVoterKey " Jane Doe " "10 " " B" "2010-01-01"
      = generateVoterKey "jane doe" "10" "B" "2010-01-01" :=
  c4_amended_normalization _ _ _ _ _ _ _ (by decide) (by decide) (by decide)

/-- C5 counterexample: for a key holding a live verified session and no
voting lock, a retried check-voter call succeeds and creates a second
live session for the same key instead of failing. -/
theorem c5_retry_creates_second_session :
    (checkVoter stVerifiedLive infoC "tok2" 5).2.success = true ∧
    sessionsFor stVerifiedLive keyC = 1 ∧
    sessionsFor (checkVoter stVerifiedLive infoC "tok2" 5).1 keyC = 2 := by
  decide

/-- C5 amended: for an unvoted key, check-voter reports a session in
progress only when a voting lock exists for the key; with no lock it
succeeds even if verified sessions for the key are live, adding one more
session for the key (the fresh token is assumed unused, as random tokens
are). -/
theorem c5_amended_lock_only (st : ServerState) (info : VoterInfo) (tok : String)
    (now : Nat) (hnv : hasVoted st (voterKeyOf info) = false)
    (hfresh : mapHas st.verifiedSessions tok = false) :
    (mapHas st.votingSessions (voterKeyOf info) = true →
      checkVoter st info tok now
        = (st, ⟨false, true, none, "Voting session already in progress for this student"⟩)) ∧
    (mapHas st.votingSessions (voterKeyOf info) = false →
      (checkVoter st info tok now).2.success = true ∧
      sessionsFor (checkVoter st info tok now).1 (voterKeyOf info)
        = sessionsFor st (voterKeyOf info) + 1) := by
  constructor
  · intro hl
    simp [checkVoter, hnv, hl]
  · intro hl
    refine ⟨by simp [checkVoter, hnv, hl], ?_⟩
    simp only [checkVoter, hnv, hl, Bool.false_eq_true, if_false]
    simp [sessionsFor, mapSet, mapDelete_of_not_has st.verifiedSessions tok hfresh]

/-- Witness for the amended C5 at a concrete locked state. -/
theorem c5_amended_lock_only_witness :
    checkVoter stLocked infoC "tok3" 7
      = (stLocked, ⟨false, true, none, "Voting session already in progress for this student"⟩) :=
  (c5_amended_lock_only stLocked infoC "tok3" 7 (by decide) (by decide)).1 (by decide)

/-- C6 counterexample: with voting disabled and a token absent from the
session store, the vote handler answers with the voting-disabled
rejection, not the session-expired one. -/
theorem c6_disabled_before_token :
    mapHas stDisabled.verifiedSessions "ghost" = false ∧
    (vote stDisabled reqUnknown 0 true true).2 = VoteResult.votingDisabled ∧
    (vote stDisabled reqUnknown 0 true true).2 ≠ VoteResult.sessionExpired := by
  decide

/-- C6 amended: the vote handler consults the voting-enabled gate first
and the token afterwards: whenever voting is disabled the result is
VotingDisabled for every request, and an unknown token is reported as
SessionExpired only when voting is enabled. -/
theorem c6_amended_gate_first (st : ServerState) (req : VoteRequest) (now : Nat)
    (a b : Bool) (tok : String) :
    (st.votingEnabled = false → (vote st req now a b).2 = VoteResult.votingDisabled) ∧
    (st.votingEnabled = true → req.sessionToken = some tok →
      mapLookup st.verifiedSessions tok = none →
      (vote st req now a b).2 = VoteResult.sessionExpired) := by
  constructor
  · intro h
    simp [vote, h]
  · intro h htok hlook
    simp [vote, h, htok, hlook]

/-- Witness for the amended C6 at a concrete disabled state. -/
theorem c6_amended_gate_first_witness :
    (vote stDisabled reqUnknown 3 true true).2 = VoteResult.votingDisabled :=
  (c6_amended_gate_first stDisabled reqUnknown 3 true true "ghost").1 (by decide)

/-- C7 counterexample: a verified session aged past the 10-minute TTL but
still present in the store (its deletion timer or sweep has not run yet)
is accepted by the vote handler, which checks only membership, never
age. -/
theorem c7_stale_session_usable :
    (sessionTimeout + 1) - (0 : Nat) > sessionTimeout ∧
    (vote stStale reqStale (sessionTimeout + 1) true true).2 = VoteResult.success := by
  decide

/-- C7 amended: the sweeper, whenever it runs, removes exactly the
verified sessions whose age exceeds the TTL — so an expired session is
gone within one sweep interval of expiring — but until a deletion
actually runs an expired session is still usable by the vote handler. -/
theorem c7_amended_sweeper (st : ServerState) (now : Nat) (tok : String)
    (s : VerifiedSession) :
    (tok, s) ∈ (cleanup st now).verifiedSessions ↔
      (tok, s) ∈ st.verifiedSessions ∧ ¬ now - s.timestamp > sessionTimeout := by
  simp [cleanup, List.mem_filter]

/-- Witness for the amended C7 at a concrete expired session. -/
theorem c7_amended_sweeper_witness :
    (("tokS", (⟨keyC, infoC, 0⟩ : VerifiedSession)) ∈
        (cleanup stStale 700000).verifiedSessions ↔
      ("tokS", (⟨keyC, infoC, 0⟩ : VerifiedSession)) ∈ stStale.verifiedSessions ∧
        ¬ (700000 : Nat) - 0 > sessionTimeout) :=
  c7_amended_sweeper stStale 700000 "tokS" ⟨keyC, infoC, 0⟩

/-- C8: the rate limiter admits the first request of a new or expired
window with the counter reset to 1; within a live window a client at or
beyond the cap is rejected with the table unchanged (so it stays rejected
until the window rolls over); and the per-client count never decreases
within a window. -/
theorem c8_rate_limit_window (m : List (String × RateEntry)) (ip : String) (now : Nat) :
    (mapLookup m ip = none →
      rateLimit m ip now = (mapSet m ip ⟨1, now + windowMs⟩, true)) ∧
    (∀ e, mapLookup m ip = some e → now > e.resetTime →
      rateLimit m ip now = (mapSet m ip ⟨1, now + windowMs⟩, true)) ∧
    (∀ e, mapLookup m ip = some e → ¬ now > e.resetTime → e.count ≥ maxRequests →
      rateLimit m ip now = (m, false)) ∧
    (∀ e e2, mapLookup m ip = some e → ¬ now > e.resetTime →
      mapLookup (rateLimit m ip now).1 ip = some e2 → e.count ≤ e2.count) := by
  refine ⟨?_, ?_, ?_, ?_⟩
  · intro h
    simp [rateLimit, h]
  · intro e h hw
    simp [rateLimit, h, hw]
  · intro e h hw hc
    simp [rateLimit, h, hw, hc, Nat.not_lt.mpr hc]
  · intro e e2 h hw h2
    by_cases hc : e.count ≥ maxRequests
    · have hr : rateLimit m ip now = (m, false) := by
        simp [rateLimit, h, hw, hc]
      rw [hr] at h2
      simp at h2
      rw [h] at h2
      cases h2
      exact Nat.le_refl _
    · have hr : rateLimit m ip now = (mapSet m ip ⟨e.count + 1, e.resetTime⟩, true) := by
        simp [rateLimit, h, hw, hc]
      rw [hr] at h2
      simp [mapLookup_mapSet_self] at h2
      cases h2
      exact Nat.le_succ _

/-- Witness for C8: a fresh window admits with count 1, and a full window
rejects without change. -/
theorem c8_rate_limit_window_witness :
    rateLimit [] "ip1" 0 = (mapSet [] "ip1" ⟨1, 0 + windowMs⟩, true) ∧
    rateLimit rlFull "ip1" 30 = (rlFull, false) := by
  refine ⟨(c8_rate_limit_window [] "ip1" 0).1 (by decide), ?_⟩
  exact (c8_rate_limit_window rlFull "ip1" 30).2.2.1 ⟨20, 50⟩ (by decide) (by decide)
    (by decide)

/-- C9: a key that holds no voting lock before a vote call holds none
after it, on every exit path: in particular a commit attempt that
acquires the lock releases it both on success and on commit failure, so a
failed commit never leaves the key blocked. -/
theorem c9_lock_released (st : ServerState) (req : VoteRequest) (now : Nat)
    (a b : Bool) (k : String) (h : mapHas st.votingSessions k = false) :
    mapHas (vote st req now a b).1.votingSessions k = false := by
  unfold vote
  split
  · exact h
  · split
    · exact h
    · split
      · exact h
      · split
        · exact h
        · split
          · exact h
          · split
            · exact h
            · split
              · exact mapHas_mapDelete_mapSet _ _ _ _ h
              · exact mapHas_mapDelete_mapSet _ _ _ _ h

/-- Witness for C9 on a failing commit that acquired the lock for keyC. -/
theorem c9_lock_released_witness :
    mapHas (vote stC9 reqC9 11 true false).1.votingSessions keyC = false :=
  c9_lock_released stC9 reqC9 11 true false keyC (by decide)

/-- C10: for a key that holds a voting lock but has no voter-roll entry,
the check-voter response carries success false and hasVoted true — the
hasVoted field is true for a voter who has not actually voted. -/
theorem c10_lock_reports_hasVoted (st : ServerState) (info : VoterInfo)
    (tok : String) (now : Nat)
    (hnv : hasVoted st (voterKeyOf info) = false)
    (hl : mapHas st.votingSessions (voterKeyOf info) = true) :
    (checkVoter st info tok now).2.success = false ∧
    (checkVoter st info tok now).2.hasVoted = true := by
  simp [checkVoter, hnv, hl]

/-- Witness for C10 at a concrete locked, unvoted state. -/
theorem c10_lock_reports_hasVoted_witness :
    (checkVoter stLocked infoC "tok9" 1).2.success = false ∧
    (checkVoter stLocked infoC "tok9" 1).2.hasVoted = true :=
  c10_lock_reports_hasVoted stLocked infoC "tok9" 1 (by decide) (by decide)

end VoteSystem
